import Mathlib

/-!
# Verification of the test-automation dashboard (`src/web-app.py`)

A shallow embedding of the result-persistence and run-orchestration core of
the application: the SQLite-backed `test_results` table is modelled as a
`List Row`, each Python function that touches the database becomes a pure
Lean function from the old database state (plus its explicit inputs, with
the wall clock passed as a parameter) to its result and/or the new state.
SQLite semantics used by the code and modelled here:

* TEXT values are compared with the default BINARY collation, i.e.
  byte-wise comparison of the UTF-8 encodings, which is lexicographic
  comparison of code points (`charListLt`);
* `LIKE` uses the default behaviour: `%` matches any sequence of
  characters, `_` matches any single character, and ASCII letters are
  compared case-insensitively (`likeMatch`);
* `datetime(s)` and `DATE(s)` on values in the stored
  `"YYYY-MM-DD HH:MM:SS"` format return the same string, resp. its first
  ten characters.
-/

/-- One row of the `test_results` table (`init_db`, src/web-app.py lines
25-31).  The `id INTEGER PRIMARY KEY AUTOINCREMENT` column is not modelled:
no query of the application reads it.  `duration REAL` is nullable in the
schema and the code guards against `NULL` durations, so it is an
`Option ℚ`; `save_test_result` always binds `test_name`, `execution_date`
and `status`, so those are plain strings. -/
structure Row where
  test_name : String
  execution_date : String
  duration : Option ℚ
  status : String
  deriving DecidableEq, Repr

/-- Lexicographic comparison of char lists by code point: the order SQLite's
BINARY collation gives TEXT values (memcmp of the UTF-8 encodings). -/
def charListLt : List Char → List Char → Bool
  | [], [] => false
  | [], _ :: _ => true
  | _ :: _, [] => false
  | a :: as, b :: bs =>
    if a.toNat < b.toNat then true
    else if b.toNat < a.toNat then false
    else charListLt as bs

/-- SQLite TEXT `<`. -/
def textLt (a b : String) : Bool := charListLt a.data b.data

/-- SQLite TEXT `<=` / `>=` (total order: `a <= b` iff not `b < a`). -/
def textLe (a b : String) : Bool := !textLt b a

/-- The components of a Python `datetime` value, as far as
`strftime("%Y-%m-%d %H:%M:%S")` reads them. -/
structure PyDateTime where
  year : ℕ
  month : ℕ
  day : ℕ
  hour : ℕ
  minute : ℕ
  second : ℕ
  deriving DecidableEq, Repr

/-- Bounds Python's `datetime` guarantees for its components
(`datetime.MINYEAR = 1`, `datetime.MAXYEAR = 9999`). -/
def PyDateTime.valid (t : PyDateTime) : Prop :=
  1 ≤ t.year ∧ t.year ≤ 9999 ∧ 1 ≤ t.month ∧ t.month ≤ 12 ∧
  1 ≤ t.day ∧ t.day ≤ 31 ∧ t.hour ≤ 23 ∧ t.minute ≤ 59 ∧ t.second ≤ 59

instance (t : PyDateTime) : Decidable t.valid := by
  unfold PyDateTime.valid; infer_instance

/-- Zero-padded two-digit decimal rendering, as `strftime` does for
`%m %d %H %M %S` (faithful for arguments below 100). -/
def pad2 (n : ℕ) : String := ⟨[Nat.digitChar (n / 10), Nat.digitChar (n % 10)]⟩

/-- Zero-padded four-digit decimal rendering, as `strftime` does for `%Y`
(faithful for arguments below 10000). -/
def pad4 (n : ℕ) : String :=
  ⟨[Nat.digitChar (n / 1000), Nat.digitChar (n / 100 % 10),
    Nat.digitChar (n / 10 % 10), Nat.digitChar (n % 10)]⟩

/-- `datetime.strftime("%Y-%m-%d %H:%M:%S")` (src/web-app.py line 44). -/
def strftimeYmdHms (t : PyDateTime) : String :=
  pad4 t.year ++ "-" ++ pad2 t.month ++ "-" ++ pad2 t.day ++ " " ++
  pad2 t.hour ++ ":" ++ pad2 t.minute ++ ":" ++ pad2 t.second

/-- Checks that a string has the shape `YYYY-MM-DD HH:MM:SS`. -/
def isYmdHmsFormat (s : String) : Bool :=
  match s.data with
  | [y1, y2, y3, y4, a, m1, m2, b, d1, d2, c, h1, h2, e, n1, n2, f, s1, s2] =>
    y1.isDigit && y2.isDigit && y3.isDigit && y4.isDigit && a == '-' &&
    m1.isDigit && m2.isDigit && b == '-' && d1.isDigit && d2.isDigit &&
    c == ' ' && h1.isDigit && h2.isDigit && e == ':' && n1.isDigit &&
    n2.isDigit && f == ':' && s1.isDigit && s2.isDigit
  | _ => false

/-- `save_test_result(test_name, duration, status)` (src/web-app.py lines
36-46): appends one row whose `execution_date` is the current wall-clock
time formatted as `"%Y-%m-%d %H:%M:%S"`.  The `datetime.now()` reading is
the explicit parameter `now`; Python's `float(duration)` becomes the `ℚ`
argument itself. -/
def save_test_result (test_name : String) (duration : ℚ) (status : String)
    (now : PyDateTime) (db : List Row) : List Row :=
  db ++ [{ test_name := test_name, execution_date := strftimeYmdHms now,
           duration := some duration, status := status }]

/-- ASCII-only lower-casing, the folding SQLite's default `LIKE` applies. -/
def asciiLower (c : Char) : Char :=
  if 65 ≤ c.toNat && c.toNat ≤ 90 then Char.ofNat (c.toNat + 32) else c

/-- The given char list together with every one of its proper suffixes. -/
def suffixes : List Char → List (List Char)
  | [] => [[]]
  | c :: cs => (c :: cs) :: suffixes cs

/-- SQLite `LIKE` pattern matching (default behaviour, no `ESCAPE` clause):
`%` matches any sequence of zero or more characters (so the rest of the
pattern must match some suffix of the text), `_` matches exactly one
character, every other pattern character matches a single text character
ASCII-case-insensitively. -/
def likeMatch : List Char → List Char → Bool
  | [], t => t.isEmpty
  | p :: ps, t =>
    if p = '%' then (suffixes t).any fun ts => likeMatch ps ts
    else
      match t with
      | [] => false
      | c :: ts =>
        if p = '_' then likeMatch ps ts
        else asciiLower p == asciiLower c && likeMatch ps ts

/-- The filter `get_recent_tests` applies for a search term: SQLite
`text LIKE '%' || search || '%'` (the parameter `f"%{search}%"` of
src/web-app.py line 55). -/
def likeContains (search text : String) : Bool :=
  likeMatch ('%' :: (search.data ++ ['%'])) text.data

/-- The order of `ORDER BY datetime(execution_date) DESC`
(src/web-app.py line 56): on the stored `"YYYY-MM-DD HH:MM:SS"` format
`datetime()` is the identity, so the order is descending BINARY text
order on `execution_date`. -/
def byDateDesc (a b : Row) : Prop :=
  textLe b.execution_date a.execution_date = true

instance : DecidableRel byDateDesc := fun a b => by
  unfold byDateDesc; infer_instance

/-- `get_recent_tests(limit=50, search=None)` (src/web-app.py lines 49-59):
`SELECT * FROM test_results`, with `WHERE test_name LIKE ? OR status
LIKE ?` added only when `search` is truthy (neither `None` nor the empty
string), then `ORDER BY datetime(execution_date) DESC LIMIT ?`. -/
def get_recent_tests (db : List Row) (limit : ℕ := 50)
    (search : Option String := none) : List Row :=
  let rows :=
    match search with
    | none => db
    | some s =>
      if s = "" then db
      else db.filter fun r => likeContains s r.test_name || likeContains s r.status
  (rows.insertionSort byDateDesc).take limit

/-- `get_kpis(days=7)` (src/web-app.py lines 61-70).  `since_dt` stands for
the computed `(datetime.now() - timedelta(days=days)).strftime("%Y-%m-%d
%H:%M:%S")`; the SQL filter `execution_date >= ?` is BINARY text
comparison.  Returns `(total, rate, avg)`:  `durations` keeps the non-null
durations, `avg = mean(durations)` if any else `0.0`, `successes` counts
rows with `status == "Pass"`, and `rate = successes / total * 100.0` if
`total` else `0.0`. -/
def get_kpis (since_dt : String) (db : List Row) : ℕ × ℚ × ℚ :=
  let rows := db.filter fun r => textLe since_dt r.execution_date
  let durations := rows.filterMap fun r => r.duration
  let avg : ℚ := if durations.isEmpty then 0 else durations.sum / durations.length
  let total := rows.length
  let successes := rows.countP fun r => r.status == "Pass"
  let rate : ℚ := if total = 0 then 0 else (successes : ℚ) / (total : ℚ) * 100
  (total, rate, avg)

/-- What launching the external runner on one file can come to: either the
process runs to completion with an exit code and the captured lines of its
combined stdout/stderr stream, or launch/execution raises an exception
whose `str(e)` is `message`. -/
inductive LaunchResult where
  | ok (returncode : ℤ) (output_lines : List String)
  | exn (message : String)
  deriving DecidableEq, Repr

/-- Splitting a char list on a separator character (empty pieces kept). -/
def splitOnChar (sep : Char) : List Char → List (List Char)
  | [] => [[]]
  | c :: cs =>
    match splitOnChar sep cs with
    | [] => if c = sep then [[], []] else [[c]]
    | r :: rs => if c = sep then [] :: r :: rs else (c :: r) :: rs

/-- `os.path.basename` (POSIX): the part after the last `/`. -/
def basename (p : String) : String := ⟨(splitOnChar '/' p.data).getLastD []⟩

/-- One iteration of the `for file_path in file_paths` loop of
`run_robot_tests` (src/web-app.py lines 74-92), acting on the accumulated
(database, results) pair.  The `runner` function abstracts
`subprocess.Popen(["robot", "--variable", f"BROWSER:{browser}", "--log",
log_file, file_path], stdout=PIPE, stderr=STDOUT)` together with reading
its combined output and waiting for it; the model reads the wall clock
once per batch (`now`).  In the completed case `duration = sum(1 for _ in
output_lines)` is the line count, `status` is `"Pass"` iff the exit code
is `0`, and the returned output is `"\n".join(output_lines)`; in the
exception case a `Fail` row with duration `0` is persisted and `str(e)`
is returned as the output. -/
def runStep (runner : String → LaunchResult) (now : PyDateTime)
    (acc : List Row × List (String × String × String)) (file_path : String) :
    List Row × List (String × String × String) :=
  let test_name := basename file_path
  match runner file_path with
  | .ok returncode output_lines =>
    let duration : ℚ := (output_lines.length : ℚ)
    let status := if returncode = 0 then "Pass" else "Fail"
    (save_test_result test_name duration status now acc.1,
     acc.2 ++ [(test_name, status, String.intercalate "\n" output_lines)])
  | .exn message =>
    (save_test_result test_name 0 "Fail" now acc.1,
     acc.2 ++ [(test_name, "Fail", message)])

/-- `run_robot_tests(file_paths, browser)` (src/web-app.py lines 72-93):
the sequential per-file loop, returning the new database state and the
list of `(test_name, status, output)` triples. -/
def run_robot_tests (runner : String → LaunchResult) (now : PyDateTime)
    (file_paths : List String) (db : List Row) :
    List Row × List (String × String × String) :=
  file_paths.foldl (runStep runner now) (db, [])

/-- `delete_old_tests(days=10)` (src/web-app.py lines 95-100).  `threshold`
stands for the computed `(datetime.now() - timedelta(days=days)).strftime(
"%Y-%m-%d %H:%M:%S")`; `DELETE FROM test_results WHERE execution_date < ?`
keeps exactly the rows that are not strictly below the threshold in BINARY
text order. -/
def delete_old_tests (threshold : String) (db : List Row) : List Row :=
  db.filter fun r => !textLt r.execution_date threshold

/-- SQLite `DATE(execution_date)` on values in the stored
`"YYYY-MM-DD HH:MM:SS"` format: the date part, i.e. the first ten
characters. -/
def dateOf (s : String) : String := ⟨s.data.take 10⟩

/-- SQLite TEXT `<=` as a relation, for `ORDER BY`. -/
def textLeR (a b : String) : Prop := textLe a b = true

instance : DecidableRel textLeR := fun a b => by
  unfold textLeR; infer_instance

/-- The module-level trend query (src/web-app.py lines 159-169):
`SELECT DATE(execution_date), SUM(CASE WHEN status='Pass' THEN 1 ELSE 0
END), SUM(CASE WHEN status='Fail' THEN 1 ELSE 0 END) FROM test_results
GROUP BY DATE(execution_date) ORDER BY DATE(execution_date)`.  One output
triple per distinct date, in ascending date order. -/
def daily_trend (db : List Row) : List (String × ℕ × ℕ) :=
  let dates := ((db.map fun r => dateOf r.execution_date).dedup).insertionSort textLeR
  dates.map fun d =>
    (d, db.countP fun r => dateOf r.execution_date == d && r.status == "Pass",
        db.countP fun r => dateOf r.execution_date == d && r.status == "Fail")

/-- Whether `needle` occurs in `hay` starting at its head, comparing
characters exactly (case-sensitively). -/
def isExactPrefix : List Char → List Char → Bool
  | [], _ => true
  | _ :: _, [] => false
  | a :: as, b :: bs => a == b && isExactPrefix as bs

/-- Case-sensitive substring containment on char lists. -/
def csSubstrAux (n : List Char) : List Char → Bool
  | [] => isExactPrefix n []
  | c :: hs => isExactPrefix n (c :: hs) || csSubstrAux n hs

/-- Case-sensitive substring containment: the match semantics the
specification asserts for the search filter (spec-side definition, written
from the spec's words, for comparison with `likeContains`). -/
def csSubstr (needle hay : String) : Bool := csSubstrAux needle.data hay.data

/-! ## The BINARY text order is a total order -/

theorem charListLt_cons {x y : Char} {xs ys : List Char} :
    charListLt (x :: xs) (y :: ys) =
      (decide (x.toNat < y.toNat) ||
        (decide (x.toNat = y.toNat) && charListLt xs ys)) := by
  simp only [charListLt]
  by_cases h1 : x.toNat < y.toNat
  · simp [h1]
  · by_cases h2 : y.toNat < x.toNat
    · have h3 : ¬ x.toNat = y.toNat := by omega
      simp [h1, h2, h3]
    · have h3 : x.toNat = y.toNat := by omega
      simp [h1, h2, h3]

theorem charListLt_irrefl : ∀ l : List Char, charListLt l l = false
  | [] => rfl
  | a :: as => by
    rw [charListLt_cons, charListLt_irrefl as]
    simp

theorem charListLt_trans : ∀ {a b c : List Char},
    charListLt a b = true → charListLt b c = true → charListLt a c = true := by
  intro a
  induction a with
  | nil =>
    intro b c hab hbc
    cases b with
    | nil => simp [charListLt] at hab
    | cons y ys =>
      cases c with
      | nil => simp [charListLt] at hbc
      | cons z zs => simp [charListLt]
  | cons x xs ih =>
    intro b c hab hbc
    cases b with
    | nil => simp [charListLt] at hab
    | cons y ys =>
      cases c with
      | nil => simp [charListLt] at hbc
      | cons z zs =>
        rw [charListLt_cons] at hab hbc ⊢
        simp only [Bool.or_eq_true, Bool.and_eq_true, decide_eq_true_eq] at hab hbc ⊢
        rcases hab with h1 | ⟨h1, h2⟩ <;> rcases hbc with h3 | ⟨h3, h4⟩
        · left; omega
        · left; omega
        · left; omega
        · exact Or.inr ⟨by omega, ih h2 h4⟩

theorem charListLt_eq_of_not : ∀ {a b : List Char},
    charListLt a b = false → charListLt b a = false → a = b := by
  intro a
  induction a with
  | nil =>
    intro b h1 _
    cases b with
    | nil => rfl
    | cons y ys => simp [charListLt] at h1
  | cons x xs ih =>
    intro b h1 h2
    cases b with
    | nil => simp [charListLt] at h2
    | cons y ys =>
      rw [charListLt_cons] at h1 h2
      simp only [Bool.or_eq_false_iff, Bool.and_eq_false_iff, decide_eq_false_iff_not,
        decide_eq_true_eq] at h1 h2
      obtain ⟨h3, h4⟩ := h1
      obtain ⟨h5, h6⟩ := h2
      have hxy : x.toNat = y.toNat := by omega
      have hx : x = y := by
        apply Char.eq_of_val_eq
        unfold Char.toNat at hxy
        exact UInt32.toNat.inj hxy
      subst hx
      have g4 : charListLt xs ys = false := by
        rcases h4 with h | h
        · omega
        · simpa using h
      have g6 : charListLt ys xs = false := by
        rcases h6 with h | h
        · omega
        · simpa using h
      rw [ih g4 g6]

theorem textLe_trans {a b c : String} (h1 : textLe a b = true)
    (h2 : textLe b c = true) : textLe a c = true := by
  unfold textLe textLt at h1 h2 ⊢
  simp only [Bool.not_eq_true'] at h1 h2 ⊢
  by_contra h
  simp only [Bool.not_eq_false] at h
  cases hbc : charListLt b.data c.data with
  | true => exact absurd (charListLt_trans hbc h) (by simp [h1])
  | false =>
    have := charListLt_eq_of_not hbc h2
    rw [this] at h1
    rw [h1] at h
    exact absurd h (by simp)

theorem textLe_total (a b : String) : textLe a b = true ∨ textLe b a = true := by
  unfold textLe textLt
  simp only [Bool.not_eq_true']
  by_contra h
  push_neg at h
  obtain ⟨h1, h2⟩ := h
  simp only [Bool.not_eq_false] at h1 h2
  have := charListLt_trans h1 h2
  rw [charListLt_irrefl] at this
  exact absurd this (by simp)

theorem textLe_refl (a : String) : textLe a a = true := by
  unfold textLe textLt
  simp [charListLt_irrefl]

instance : IsTrans Row byDateDesc :=
  ⟨fun _ _ _ h1 h2 => textLe_trans h2 h1⟩

instance : IsTotal Row byDateDesc :=
  ⟨fun a b => (textLe_total b.execution_date a.execution_date).elim Or.inl Or.inr⟩

instance : IsTrans String textLeR :=
  ⟨fun _ _ _ h1 h2 => textLe_trans h1 h2⟩

instance : IsTotal String textLeR :=
  ⟨fun a b => (textLe_total a b).elim Or.inl Or.inr⟩

/-! ## The batch loop, evaluated file by file -/

/-- The row one file contributes to the database (read off `runStep`). -/
def runRow (runner : String → LaunchResult) (now : PyDateTime)
    (file_path : String) : Row :=
  match runner file_path with
  | .ok returncode output_lines =>
    { test_name := basename file_path, execution_date := strftimeYmdHms now,
      duration := some (output_lines.length : ℚ),
      status := if returncode = 0 then "Pass" else "Fail" }
  | .exn _ =>
    { test_name := basename file_path, execution_date := strftimeYmdHms now,
      duration := some 0, status := "Fail" }

/-- The result triple one file contributes (read off `runStep`). -/
def runTriple (runner : String → LaunchResult) (file_path : String) :
    String × String × String :=
  match runner file_path with
  | .ok returncode output_lines =>
    (basename file_path, if returncode = 0 then "Pass" else "Fail",
     String.intercalate "\n" output_lines)
  | .exn message => (basename file_path, "Fail", message)

theorem runStep_eq (runner : String → LaunchResult) (now : PyDateTime)
    (acc : List Row × List (String × String × String)) (fp : String) :
    runStep runner now acc fp =
      (acc.1 ++ [runRow runner now fp], acc.2 ++ [runTriple runner fp]) := by
  unfold runStep runRow runTriple save_test_result
  cases runner fp <;> simp

theorem run_foldl (runner : String → LaunchResult) (now : PyDateTime) :
    ∀ (fps : List String) (db : List Row)
      (rs : List (String × String × String)),
      fps.foldl (runStep runner now) (db, rs) =
        (db ++ fps.map (runRow runner now), rs ++ fps.map (runTriple runner)) := by
  intro fps
  induction fps with
  | nil => intro db rs; simp
  | cons fp fps ih =>
    intro db rs
    rw [List.foldl_cons, runStep_eq, ih]
    simp

/-- `run_robot_tests` appends one row per file to the database and returns
one triple per file, in input order. -/
theorem run_robot_tests_eq (runner : String → LaunchResult) (now : PyDateTime)
    (fps : List String) (db : List Row) :
    run_robot_tests runner now fps db =
      (db ++ fps.map (runRow runner now), fps.map (runTriple runner)) := by
  unfold run_robot_tests
  rw [run_foldl]
  simp
theorem row_at (runner : String → LaunchResult) (now : PyDateTime)
    (db : List Row) (fps : List String) (i : ℕ) (hi : i < fps.length) :
    (run_robot_tests runner now fps db).1.getD (db.length + i)
        { test_name := "", execution_date := "", duration := none, status := "" } =
      runRow runner now (fps.getD i "") := by
  rw [run_robot_tests_eq]
  rw [List.getD_append_right _ _ _ _ (Nat.le_add_right _ _)]
  rw [Nat.add_sub_cancel_left]
  rw [List.getD_eq_getElem _ _ (by simpa using hi), List.getElem_map,
    List.getD_eq_getElem _ _ hi]

theorem triple_at (runner : String → LaunchResult) (now : PyDateTime)
    (db : List Row) (fps : List String) (i : ℕ) (hi : i < fps.length) :
    (run_robot_tests runner now fps db).2.getD i ("", "", "") =
      runTriple runner (fps.getD i "") := by
  rw [run_robot_tests_eq]
  rw [List.getD_eq_getElem _ _ (by simpa using hi), List.getElem_map,
    List.getD_eq_getElem _ _ hi]

/-- C1: if launching/executing the runner for the `i`-th file raises an
exception, `run_robot_tests` persists one `Fail` row with duration 0 for
that file, returns the exception text as that file's output, and still
yields exactly one persisted row and one result triple per input file. -/
theorem C1_launch_fault_isolated
    (runner : String → LaunchResult) (now : PyDateTime) (db : List Row)
    (fps : List String) (i : ℕ) (msg : String)
    (hi : i < fps.length) (hexn : runner (fps.getD i "") = .exn msg) :
    (run_robot_tests runner now fps db).2.length = fps.length ∧
    (run_robot_tests runner now fps db).1.length = db.length + fps.length ∧
    (run_robot_tests runner now fps db).1.getD (db.length + i)
        { test_name := "", execution_date := "", duration := none, status := "" } =
      { test_name := basename (fps.getD i ""), execution_date := strftimeYmdHms now,
        duration := some 0, status := "Fail" } ∧
    (run_robot_tests runner now fps db).2.getD i ("", "", "") =
      (basename (fps.getD i ""), "Fail", msg) := by
  refine ⟨by rw [run_robot_tests_eq]; simp, by rw [run_robot_tests_eq]; simp, ?_, ?_⟩
  · rw [row_at runner now db fps i hi]
    unfold runRow
    rw [hexn]
  · rw [triple_at runner now db fps i hi]
    unfold runTriple
    rw [hexn]

/-- Witness for C1: a three-file batch whose second file's launch raises
`[Errno 2] No such file or directory: 'robot'`. -/
theorem C1_launch_fault_isolated_witness :
    (run_robot_tests
        (fun fp => if fp = "temp_uploads/b.robot"
                   then .exn "[Errno 2] No such file or directory: 'robot'"
                   else .ok 0 ["line1", "line2"])
        ⟨2024, 6, 21, 12, 0, 5⟩
        ["temp_uploads/a.robot", "temp_uploads/b.robot", "temp_uploads/c.robot"]
        []).2.length = 3 ∧
    (run_robot_tests
        (fun fp => if fp = "temp_uploads/b.robot"
                   then .exn "[Errno 2] No such file or directory: 'robot'"
                   else .ok 0 ["line1", "line2"])
        ⟨2024, 6, 21, 12, 0, 5⟩
        ["temp_uploads/a.robot", "temp_uploads/b.robot", "temp_uploads/c.robot"]
        []).1.length = 0 + 3 ∧
    (run_robot_tests
        (fun fp => if fp = "temp_uploads/b.robot"
                   then .exn "[Errno 2] No such file or directory: 'robot'"
                   else .ok 0 ["line1", "line2"])
        ⟨2024, 6, 21, 12, 0, 5⟩
        ["temp_uploads/a.robot", "temp_uploads/b.robot", "temp_uploads/c.robot"]
        []).1.getD (0 + 1)
        { test_name := "", execution_date := "", duration := none, status := "" } =
      { test_name := basename "temp_uploads/b.robot",
        execution_date := strftimeYmdHms ⟨2024, 6, 21, 12, 0, 5⟩,
        duration := some 0, status := "Fail" } ∧
    (run_robot_tests
        (fun fp => if fp = "temp_uploads/b.robot"
                   then .exn "[Errno 2] No such file or directory: 'robot'"
                   else .ok 0 ["line1", "line2"])
        ⟨2024, 6, 21, 12, 0, 5⟩
        ["temp_uploads/a.robot", "temp_uploads/b.robot", "temp_uploads/c.robot"]
        []).2.getD 1 ("", "", "") =
      (basename "temp_uploads/b.robot", "Fail",
       "[Errno 2] No such file or directory: 'robot'") :=
  C1_launch_fault_isolated
    (fun fp => if fp = "temp_uploads/b.robot"
               then .exn "[Errno 2] No such file or directory: 'robot'"
               else .ok 0 ["line1", "line2"])
    ⟨2024, 6, 21, 12, 0, 5⟩ []
    ["temp_uploads/a.robot", "temp_uploads/b.robot", "temp_uploads/c.robot"]
    1 "[Errno 2] No such file or directory: 'robot'" (by decide) (by decide)

/-- C2: for a file whose runner process completes, the persisted status is
`Pass` iff the exit code is 0 (any nonzero exit code gives `Fail`), and the
persisted duration is the number of captured output lines. -/
theorem C2_exit_code_classification
    (runner : String → LaunchResult) (now : PyDateTime) (db : List Row)
    (fps : List String) (i : ℕ) (rc : ℤ) (lines : List String)
    (hi : i < fps.length) (hok : runner (fps.getD i "") = .ok rc lines) :
    (((run_robot_tests runner now fps db).1.getD (db.length + i)
        { test_name := "", execution_date := "", duration := none,
          status := "" }).status = "Pass" ↔ rc = 0) ∧
    (((run_robot_tests runner now fps db).1.getD (db.length + i)
        { test_name := "", execution_date := "", duration := none,
          status := "" }).status = "Fail" ↔ rc ≠ 0) ∧
    ((run_robot_tests runner now fps db).1.getD (db.length + i)
        { test_name := "", execution_date := "", duration := none,
          status := "" }).duration = some (lines.length : ℚ) := by
  rw [row_at runner now db fps i hi]
  unfold runRow
  rw [hok]
  by_cases h : rc = 0 <;> simp [h]

/-- Witness for C2: a two-file batch whose second file's runner exits with
code 1 after printing three lines. -/
theorem C2_exit_code_classification_witness :
    (((run_robot_tests
        (fun fp => if fp = "temp_uploads/failing.robot"
                   then .ok 1 ["l1", "l2", "l3"] else .ok 0 ["ok"])
        ⟨2025, 1, 2, 3, 4, 5⟩
        ["temp_uploads/passing.robot", "temp_uploads/failing.robot"]
        []).1.getD (0 + 1)
        { test_name := "", execution_date := "", duration := none,
          status := "" }).status = "Pass" ↔ (1 : ℤ) = 0) ∧
    (((run_robot_tests
        (fun fp => if fp = "temp_uploads/failing.robot"
                   then .ok 1 ["l1", "l2", "l3"] else .ok 0 ["ok"])
        ⟨2025, 1, 2, 3, 4, 5⟩
        ["temp_uploads/passing.robot", "temp_uploads/failing.robot"]
        []).1.getD (0 + 1)
        { test_name := "", execution_date := "", duration := none,
          status := "" }).status = "Fail" ↔ (1 : ℤ) ≠ 0) ∧
    ((run_robot_tests
        (fun fp => if fp = "temp_uploads/failing.robot"
                   then .ok 1 ["l1", "l2", "l3"] else .ok 0 ["ok"])
        ⟨2025, 1, 2, 3, 4, 5⟩
        ["temp_uploads/passing.robot", "temp_uploads/failing.robot"]
        []).1.getD (0 + 1)
        { test_name := "", execution_date := "", duration := none,
          status := "" }).duration = some ((["l1", "l2", "l3"].length : ℕ) : ℚ) :=
  C2_exit_code_classification
    (fun fp => if fp = "temp_uploads/failing.robot"
               then .ok 1 ["l1", "l2", "l3"] else .ok 0 ["ok"])
    ⟨2025, 1, 2, 3, 4, 5⟩ []
    ["temp_uploads/passing.robot", "temp_uploads/failing.robot"]
    1 1 ["l1", "l2", "l3"] (by decide) (by decide)

theorem digitChar_isDigit {n : ℕ} (h : n < 10) : (Nat.digitChar n).isDigit = true := by
  interval_cases n <;> decide

theorem strftimeYmdHms_data (t : PyDateTime) :
    (strftimeYmdHms t).data =
      [Nat.digitChar (t.year / 1000), Nat.digitChar (t.year / 100 % 10),
       Nat.digitChar (t.year / 10 % 10), Nat.digitChar (t.year % 10), '-',
       Nat.digitChar (t.month / 10), Nat.digitChar (t.month % 10), '-',
       Nat.digitChar (t.day / 10), Nat.digitChar (t.day % 10), ' ',
       Nat.digitChar (t.hour / 10), Nat.digitChar (t.hour % 10), ':',
       Nat.digitChar (t.minute / 10), Nat.digitChar (t.minute % 10), ':',
       Nat.digitChar (t.second / 10), Nat.digitChar (t.second % 10)] := by
  simp [strftimeYmdHms, pad4, pad2, String.data_append]

theorem strftimeYmdHms_format {t : PyDateTime} (hv : t.valid) :
    isYmdHmsFormat (strftimeYmdHms t) = true := by
  obtain ⟨h1, h2, h3, h4, h5, h6, h7, h8, h9⟩ := hv
  unfold isYmdHmsFormat
  rw [strftimeYmdHms_data]
  simp only
  simp [digitChar_isDigit (by omega : t.year / 1000 < 10),
    digitChar_isDigit (by omega : t.year / 100 % 10 < 10),
    digitChar_isDigit (by omega : t.year / 10 % 10 < 10),
    digitChar_isDigit (by omega : t.year % 10 < 10),
    digitChar_isDigit (by omega : t.month / 10 < 10),
    digitChar_isDigit (by omega : t.month % 10 < 10),
    digitChar_isDigit (by omega : t.day / 10 < 10),
    digitChar_isDigit (by omega : t.day % 10 < 10),
    digitChar_isDigit (by omega : t.hour / 10 < 10),
    digitChar_isDigit (by omega : t.hour % 10 < 10),
    digitChar_isDigit (by omega : t.minute / 10 < 10),
    digitChar_isDigit (by omega : t.minute % 10 < 10),
    digitChar_isDigit (by omega : t.second / 10 < 10),
    digitChar_isDigit (by omega : t.second % 10 < 10)]

/-- C7: every row the application inserts (via `save_test_result`, from
either path of `run_robot_tests`) carries the given name, a status that is
`Pass` or `Fail`, a non-null, non-negative duration, and an
`execution_date` equal to the insertion-time clock reading in
`YYYY-MM-DD HH:MM:SS` format; rows already present are never modified, and
`delete_old_tests` only removes rows. -/
theorem C7_insert_invariants (now : PyDateTime) (hv : now.valid) :
    (∀ (name : String) (dur : ℚ) (status : String) (db : List Row),
        save_test_result name dur status now db =
          db ++ [{ test_name := name, execution_date := strftimeYmdHms now,
                   duration := some dur, status := status }]) ∧
    isYmdHmsFormat (strftimeYmdHms now) = true ∧
    (∀ (runner : String → LaunchResult) (fps : List String) (db : List Row),
        ∀ r ∈ (run_robot_tests runner now fps db).1,
          r ∈ db ∨
            ((r.status = "Pass" ∨ r.status = "Fail") ∧
             (∃ q : ℚ, r.duration = some q ∧ 0 ≤ q) ∧
             r.execution_date = strftimeYmdHms now)) ∧
    (∀ (runner : String → LaunchResult) (fps : List String) (db : List Row),
        (run_robot_tests runner now fps db).1.take db.length = db) ∧
    (∀ (threshold : String) (db : List Row),
        (delete_old_tests threshold db).Sublist db) := by
  refine ⟨fun name dur status db => rfl, strftimeYmdHms_format hv, ?_, ?_, ?_⟩
  · intro runner fps db r hr
    rw [run_robot_tests_eq] at hr
    rcases List.mem_append.mp hr with h | h
    · exact Or.inl h
    · right
      obtain ⟨fp, _, rfl⟩ := List.mem_map.mp h
      unfold runRow
      cases hfp : runner fp with
      | ok rc lines =>
        refine ⟨?_, ⟨(lines.length : ℚ), rfl, by positivity⟩, rfl⟩
        by_cases h0 : rc = 0 <;> simp [h0]
      | exn msg => exact ⟨Or.inr rfl, ⟨0, rfl, le_refl 0⟩, rfl⟩
  · intro runner fps db
    rw [run_robot_tests_eq]
    exact List.take_left db _
  · intro threshold db
    exact List.filter_sublist db

/-- Witness for C7 at the clock reading 2024-06-21 12:00:05. -/
theorem C7_insert_invariants_witness :
    (∀ (name : String) (dur : ℚ) (status : String) (db : List Row),
        save_test_result name dur status ⟨2024, 6, 21, 12, 0, 5⟩ db =
          db ++ [{ test_name := name,
                   execution_date := strftimeYmdHms ⟨2024, 6, 21, 12, 0, 5⟩,
                   duration := some dur, status := status }]) ∧
    isYmdHmsFormat (strftimeYmdHms ⟨2024, 6, 21, 12, 0, 5⟩) = true ∧
    (∀ (runner : String → LaunchResult) (fps : List String) (db : List Row),
        ∀ r ∈ (run_robot_tests runner ⟨2024, 6, 21, 12, 0, 5⟩ fps db).1,
          r ∈ db ∨
            ((r.status = "Pass" ∨ r.status = "Fail") ∧
             (∃ q : ℚ, r.duration = some q ∧ 0 ≤ q) ∧
             r.execution_date = strftimeYmdHms ⟨2024, 6, 21, 12, 0, 5⟩)) ∧
    (∀ (runner : String → LaunchResult) (fps : List String) (db : List Row),
        (run_robot_tests runner ⟨2024, 6, 21, 12, 0, 5⟩ fps db).1.take db.length = db) ∧
    (∀ (threshold : String) (db : List Row),
        (delete_old_tests threshold db).Sublist db) :=
  C7_insert_invariants ⟨2024, 6, 21, 12, 0, 5⟩ (by decide)

/-- C3: `get_kpis` returns `(total, rate, avg)` with `total` the number of
rows at or after the window start, `rate = successes / total * 100` when
`total > 0` and `0` when `total = 0` (never dividing by zero), and `avg`
the mean of the non-null durations of those rows, `0` when there are
none. -/
theorem C3_kpis_characterised (since_dt : String) (db : List Row) :
    (get_kpis since_dt db).1 =
      db.countP (fun r => textLe since_dt r.execution_date) ∧
    (get_kpis since_dt db).2.1 =
      (if (get_kpis since_dt db).1 = 0 then 0
       else (db.countP (fun r =>
                (r.status == "Pass") && textLe since_dt r.execution_date) : ℚ) /
         ((get_kpis since_dt db).1 : ℚ) * 100) ∧
    (get_kpis since_dt db).2.2 =
      (if ((db.filter fun r => textLe since_dt r.execution_date).filterMap
            fun r => r.duration) = [] then 0
       else ((db.filter fun r => textLe since_dt r.execution_date).filterMap
              fun r => r.duration).sum /
         (((db.filter fun r => textLe since_dt r.execution_date).filterMap
             fun r => r.duration).length : ℚ)) := by
  have hsucc : (db.filter fun r => textLe since_dt r.execution_date).countP
      (fun r => r.status == "Pass") =
      db.countP (fun r => (r.status == "Pass") && textLe since_dt r.execution_date) :=
    List.countP_filter _ _ _
  have htot : (db.filter fun r => textLe since_dt r.execution_date).length =
      db.countP (fun r => textLe since_dt r.execution_date) :=
    (List.countP_eq_length_filter _ _).symm
  unfold get_kpis
  simp only []
  refine ⟨htot, ?_, ?_⟩
  · rw [hsucc, htot]
  · simp only [List.isEmpty_iff]

/-- C4: `delete_old_tests` keeps exactly the rows whose `execution_date`
is not strictly before the threshold, in their original order; with a
threshold of `now - 10 days`, a 20-day-old row is removed and a 1-day-old
row is retained. -/
theorem C4_delete_strictly_older (threshold : String) (db : List Row) :
    (∀ r : Row, r ∈ delete_old_tests threshold db ↔
        r ∈ db ∧ ¬ textLt r.execution_date threshold = true) ∧
    (delete_old_tests threshold db).Sublist db ∧
    delete_old_tests "2024-06-11 12:00:00"
        [{ test_name := "twenty_days_old.robot",
           execution_date := "2024-06-01 12:00:00",
           duration := some 1, status := "Pass" },
         { test_name := "one_day_old.robot",
           execution_date := "2024-06-20 12:00:00",
           duration := some 2, status := "Fail" }] =
      [{ test_name := "one_day_old.robot",
         execution_date := "2024-06-20 12:00:00",
         duration := some 2, status := "Fail" }] := by
  refine ⟨?_, List.filter_sublist db, by decide⟩
  intro r
  unfold delete_old_tests
  rw [List.mem_filter]
  simp

/-- C8: `get_recent_tests` returns at most `limit` rows, in descending
`execution_date` order, and the limit defaults to 50 when not supplied. -/
theorem C8_limit_and_order (db : List Row) (limit : ℕ) (search : Option String) :
    (get_recent_tests db limit search).length ≤ limit ∧
    List.Sorted byDateDesc (get_recent_tests db limit search) ∧
    get_recent_tests db = get_recent_tests db 50 none := by
  refine ⟨?_, ?_, rfl⟩
  · unfold get_recent_tests
    simp only []
    rw [List.length_take]
    exact inf_le_left
  · unfold get_recent_tests
    simp only []
    exact List.Pairwise.sublist (List.take_sublist _ _)
      (List.sorted_insertionSort byDateDesc _)

/-- C10: the empty search string is treated exactly like an absent filter
(`if search:` is false for both `None` and `""`). -/
theorem C10_empty_search_is_no_filter (db : List Row) (limit : ℕ) :
    get_recent_tests db limit (some "") = get_recent_tests db limit none := by
  unfold get_recent_tests
  simp

theorem mem_get_recent_tests {db : List Row} {s : String} {limit : ℕ}
    (hs : s ≠ "") (hl : db.length ≤ limit) :
    ∀ r : Row, r ∈ get_recent_tests db limit (some s) ↔
      r ∈ db ∧ (likeContains s r.test_name || likeContains s r.status) = true := by
  intro r
  unfold get_recent_tests
  simp only [if_neg hs]
  rw [List.take_of_length_le
      (le_trans (le_of_eq (List.perm_insertionSort byDateDesc _).length_eq)
        (le_trans (List.length_filter_le _ _) hl))]
  rw [(List.perm_insertionSort byDateDesc _).mem_iff, List.mem_filter]

/-- C5 as stated is false on the code: SQLite `LIKE` is ASCII-case-
insensitive, so the filter `"chrome"` also returns a row named
`"CHROME_LOGIN"`, although neither its name nor its status contains
`"chrome"` as a case-sensitive substring. -/
theorem C5_case_sensitivity_counterexample :
    get_recent_tests
        [{ test_name := "CHROME_LOGIN", execution_date := "2024-01-01 00:00:00",
           duration := some 1, status := "Pass" }] 50 (some "chrome") =
      [{ test_name := "CHROME_LOGIN", execution_date := "2024-01-01 00:00:00",
         duration := some 1, status := "Pass" }] ∧
    csSubstr "chrome" "CHROME_LOGIN" = false ∧
    csSubstr "chrome" "Pass" = false := by decide

/-- C5 (amended): for a non-empty filter, and a limit at least the table
size, `get_recent_tests` returns exactly the rows whose `test_name` or
`status` matches the `LIKE` pattern `%filter%` (ASCII-case-insensitive,
with `%` and `_` in the filter acting as wildcards); the filter
`"chrome"` against rows named `"test_chrome_login"` and
`"test_firefox_logout"` returns only the first. -/
theorem C5_search_filter_like (db : List Row) (s : String) (limit : ℕ)
    (hs : s ≠ "") (hl : db.length ≤ limit) :
    (∀ r : Row, r ∈ get_recent_tests db limit (some s) ↔
        r ∈ db ∧ (likeContains s r.test_name || likeContains s r.status) = true) ∧
    get_recent_tests
        [{ test_name := "test_chrome_login", execution_date := "2024-01-01 00:00:00",
           duration := some 1, status := "Pass" },
         { test_name := "test_firefox_logout", execution_date := "2024-01-01 00:00:01",
           duration := some 2, status := "Pass" }] 50 (some "chrome") =
      [{ test_name := "test_chrome_login", execution_date := "2024-01-01 00:00:00",
         duration := some 1, status := "Pass" }] :=
  ⟨mem_get_recent_tests hs hl, by decide⟩

/-- Witness for the amended C5 at the spec's own example. -/
theorem C5_search_filter_like_witness :
    (∀ r : Row, r ∈ get_recent_tests
        [{ test_name := "test_chrome_login", execution_date := "2024-01-01 00:00:00",
           duration := some 1, status := "Pass" },
         { test_name := "test_firefox_logout", execution_date := "2024-01-01 00:00:01",
           duration := some 2, status := "Pass" }] 50 (some "chrome") ↔
        r ∈ [{ test_name := "test_chrome_login", execution_date := "2024-01-01 00:00:00",
               duration := some 1, status := "Pass" },
             { test_name := "test_firefox_logout", execution_date := "2024-01-01 00:00:01",
               duration := some 2, status := "Pass" }] ∧
          (likeContains "chrome" r.test_name || likeContains "chrome" r.status) = true) ∧
    get_recent_tests
        [{ test_name := "test_chrome_login", execution_date := "2024-01-01 00:00:00",
           duration := some 1, status := "Pass" },
         { test_name := "test_firefox_logout", execution_date := "2024-01-01 00:00:01",
           duration := some 2, status := "Pass" }] 50 (some "chrome") =
      [{ test_name := "test_chrome_login", execution_date := "2024-01-01 00:00:00",
         duration := some 1, status := "Pass" }] :=
  C5_search_filter_like
    [{ test_name := "test_chrome_login", execution_date := "2024-01-01 00:00:00",
       duration := some 1, status := "Pass" },
     { test_name := "test_firefox_logout", execution_date := "2024-01-01 00:00:01",
       duration := some 2, status := "Pass" }]
    "chrome" 50 (by decide) (by decide)

/-- C9 as stated is false on the code: `_` in the search string is a
`LIKE` wildcard, so the filter `"a_c"` returns a row named
`"abc.robot"`, although `"a_c"` occurs literally in neither its name nor
its status. -/
theorem C9_wildcard_counterexample :
    get_recent_tests
        [{ test_name := "abc.robot", execution_date := "2024-01-01 00:00:00",
           duration := some 1, status := "Fail" }] 50 (some "a_c") =
      [{ test_name := "abc.robot", execution_date := "2024-01-01 00:00:00",
         duration := some 1, status := "Fail" }] ∧
    csSubstr "a_c" "abc.robot" = false ∧
    csSubstr "a_c" "Fail" = false := by decide

/-- C9 (amended): no validation is performed, but the search string is
matched as the SQL `LIKE` pattern `%search%`, in which `%` and `_` of the
search string act as wildcards (any run, resp. any single character) and
the other characters match literally up to ASCII case. -/
theorem C9_like_wildcards (db : List Row) (s : String) (limit : ℕ)
    (hs : s ≠ "") (hl : db.length ≤ limit) :
    (∀ r : Row, r ∈ get_recent_tests db limit (some s) ↔
        r ∈ db ∧ (likeContains s r.test_name || likeContains s r.status) = true) ∧
    likeContains "a_c" "abc" = true ∧
    likeContains "a%c" "a-long-way-to-c" = true ∧
    likeContains "100%" "100 lines" = true ∧
    likeContains "a_c" "ac" = false :=
  ⟨mem_get_recent_tests hs hl, by decide, by decide, by decide, by decide⟩

/-- Witness for the amended C9 at the wildcard filter `"a_c"`. -/
theorem C9_like_wildcards_witness :
    (∀ r : Row, r ∈ get_recent_tests
        [{ test_name := "abc.robot", execution_date := "2024-01-01 00:00:00",
           duration := some 1, status := "Fail" }] 50 (some "a_c") ↔
        r ∈ [{ test_name := "abc.robot", execution_date := "2024-01-01 00:00:00",
               duration := some 1, status := "Fail" }] ∧
          (likeContains "a_c" r.test_name || likeContains "a_c" r.status) = true) ∧
    likeContains "a_c" "abc" = true ∧
    likeContains "a%c" "a-long-way-to-c" = true ∧
    likeContains "100%" "100 lines" = true ∧
    likeContains "a_c" "ac" = false :=
  C9_like_wildcards
    [{ test_name := "abc.robot", execution_date := "2024-01-01 00:00:00",
       duration := some 1, status := "Fail" }]
    "a_c" 50 (by decide) (by decide)

/-- C6: the daily-trend query returns one `(date, pass_count, fail_count)`
triple per distinct calendar date of `execution_date`, in ascending date
order, counting that date's `Pass` and `Fail` rows; on the spec's example
(three rows on 2024-01-01 with 2 passes and 1 failure, one passing row on
2024-01-02) it returns `[("2024-01-01", 2, 1), ("2024-01-02", 1, 0)]`. -/
theorem C6_daily_trend_grouping (db : List Row) :
    List.Sorted textLeR ((daily_trend db).map Prod.fst) ∧
    ((daily_trend db).map Prod.fst).Nodup ∧
    (∀ d : String, d ∈ (daily_trend db).map Prod.fst ↔
        d ∈ db.map fun r => dateOf r.execution_date) ∧
    (∀ e ∈ daily_trend db,
        e.2.1 = db.countP
          (fun r => dateOf r.execution_date == e.1 && r.status == "Pass") ∧
        e.2.2 = db.countP
          (fun r => dateOf r.execution_date == e.1 && r.status == "Fail")) ∧
    daily_trend
        [{ test_name := "t1.robot", execution_date := "2024-01-01 09:00:00",
           duration := some 1, status := "Pass" },
         { test_name := "t2.robot", execution_date := "2024-01-01 10:00:00",
           duration := some 1, status := "Pass" },
         { test_name := "t3.robot", execution_date := "2024-01-01 11:00:00",
           duration := some 1, status := "Fail" },
         { test_name := "t4.robot", execution_date := "2024-01-02 09:00:00",
           duration := some 1, status := "Pass" }] =
      [("2024-01-01", 2, 1), ("2024-01-02", 1, 0)] := by
  have hmapfst : (daily_trend db).map Prod.fst =
      ((db.map fun r => dateOf r.execution_date).dedup).insertionSort textLeR := by
    unfold daily_trend
    simp [List.map_map, Function.comp_def]
  refine ⟨?_, ?_, ?_, ?_, by decide⟩
  · rw [hmapfst]
    exact List.sorted_insertionSort textLeR _
  · rw [hmapfst]
    exact (List.perm_insertionSort textLeR _).nodup_iff.mpr (List.nodup_dedup _)
  · intro d
    rw [hmapfst, (List.perm_insertionSort textLeR _).mem_iff, List.mem_dedup]
  · intro e he
    unfold daily_trend at he
    simp only [List.mem_map] at he
    obtain ⟨d, _, rfl⟩ := he
    exact ⟨rfl, rfl⟩
